import Mathlib

/-!
Verification of the Svelte adapter for the Pillar embedded-help SDK.

The adapter (PillarProvider.svelte, usePillar.ts, useHelpPanel.ts) is glue
code: it keeps three reactive stores (`pillar`, `state`, `isPanelOpen`) in
sync with an external singleton SDK instance, forwards imperative calls to
that instance, and mounts caller-supplied card components on demand.

The shallow embedding below models the stores as a record, SDK method
invocations as an explicit trace (`SDKCall`), event-listener handlers as a
small command language (`HandlerSpec`) with an interpreter (`applyHandler`),
and the mount/destroy lifecycle as pure functions over that state.
-/

/-- SDK state values, per the adapter docs: one of the string literals
`uninitialized`, `ready`, `error` (stateStore type `PillarState`). -/
inductive PillarState where
  | uninitialized
  | ready
  | error
deriving DecidableEq, Repr

/-- Options object accepted by the provider `open` action
(PillarProvider.svelte lines 56-61). -/
structure OpenOptions where
  view : Option String := none
  article : Option String := none
  search : Option String := none
  focusInput : Option Bool := none
deriving DecidableEq, Repr

/-- The external SDK singleton instance, abstracted to the one field the
adapter reads (`instance.state`). -/
structure PillarInstance where
  state : PillarState
deriving DecidableEq, Repr

/-- The provider reactive stores: `pillarStore` (instance or null),
`stateStore`, `isPanelOpenStore` (PillarProvider.svelte lines 46-48).
`isReadyStore` is derived from `stateStore` and never written directly. -/
structure Stores where
  pillar : Option PillarInstance
  state : PillarState
  isPanelOpen : Bool
deriving DecidableEq, Repr

/-- A method invocation on the SDK instance, recorded as a trace element so
that delegation (which method, which arguments) is observable. Callbacks
are modelled as opaque numeric tokens that are forwarded unchanged. -/
inductive SDKCall where
  | openCall (options : Option OpenOptions)
  | closeCall
  | toggleCall
  | navigateCall (view : String) (params : Option (List (String × String)))
  | setThemeCall (theme : String)
  | setTextSelectionEnabledCall (enabled : Bool)
  | onCall (event : String) (callback : Nat)
  | onTaskCall (taskName : String) (handler : Nat)
  | registerCardCall (cardType : String)
  | destroyCall
deriving DecidableEq, Repr

/-- An unsubscribe function returned to the caller: either the no-op
`() => \x7b\x7d` or the unsubscribe produced by the instance API, tagged
with the registration it belongs to. -/
inductive Unsub where
  | noop
  | fromOn (event : String) (callback : Nat)
  | fromOnTask (taskName : String) (handler : Nat)
deriving DecidableEq, Repr

/-- `open(options)` action: `get(pillarStore)?.open(options)`
(PillarProvider.svelte lines 56-63). Returns the (unchanged) stores and
the trace of SDK method calls made. -/
def openAction (st : Stores) (options : Option OpenOptions) : Stores × List SDKCall :=
  match st.pillar with
  | none => (st, [])
  | some _ => (st, [SDKCall.openCall options])

/-- `close()` action: `get(pillarStore)?.close()` (lines 65-67). -/
def closeAction (st : Stores) : Stores × List SDKCall :=
  match st.pillar with
  | none => (st, [])
  | some _ => (st, [SDKCall.closeCall])

/-- `toggle()` action: `get(pillarStore)?.toggle()` (lines 69-71). -/
def toggleAction (st : Stores) : Stores × List SDKCall :=
  match st.pillar with
  | none => (st, [])
  | some _ => (st, [SDKCall.toggleCall])

/-- `openArticle(slug)` action: `get(pillarStore)?.open(\x7b article: slug \x7d)`
(lines 73-75). -/
def openArticleAction (st : Stores) (slug : String) : Stores × List SDKCall :=
  match st.pillar with
  | none => (st, [])
  | some _ => (st, [SDKCall.openCall (some { article := some slug })])

/-- `openCategory(slug)` action:
`get(pillarStore)?.navigate('category', \x7b slug \x7d)` (lines 77-79). -/
def openCategoryAction (st : Stores) (slug : String) : Stores × List SDKCall :=
  match st.pillar with
  | none => (st, [])
  | some _ => (st, [SDKCall.navigateCall "category" (some [("slug", slug)])])

/-- `search(query)` action: `get(pillarStore)?.open(\x7b search: query \x7d)`
(lines 81-83). -/
def searchAction (st : Stores) (query : String) : Stores × List SDKCall :=
  match st.pillar with
  | none => (st, [])
  | some _ => (st, [SDKCall.openCall (some { search := some query })])

/-- `navigate(view, params)` action: `get(pillarStore)?.navigate(view, params)`
(lines 85-87). -/
def navigateAction (st : Stores) (view : String)
    (params : Option (List (String × String))) : Stores × List SDKCall :=
  match st.pillar with
  | none => (st, [])
  | some _ => (st, [SDKCall.navigateCall view params])

/-- `setTheme(theme)` action: `get(pillarStore)?.setTheme(theme)` (lines 89-91). -/
def setThemeAction (st : Stores) (theme : String) : Stores × List SDKCall :=
  match st.pillar with
  | none => (st, [])
  | some _ => (st, [SDKCall.setThemeCall theme])

/-- `setTextSelectionEnabled(enabled)` action:
`get(pillarStore)?.setTextSelectionEnabled(enabled)` (lines 93-95). -/
def setTextSelectionEnabledAction (st : Stores) (enabled : Bool) : Stores × List SDKCall :=
  match st.pillar with
  | none => (st, [])
  | some _ => (st, [SDKCall.setTextSelectionEnabledCall enabled])

/-- `on(event, callback)` action:
`return get(pillarStore)?.on(event, callback) ?? (() => \x7b\x7d)` (lines 97-102).
Also returns the unsubscribe value handed back to the caller. -/
def onAction (st : Stores) (event : String) (callback : Nat) :
    Stores × List SDKCall × Unsub :=
  match st.pillar with
  | none => (st, [], Unsub.noop)
  | some _ => (st, [SDKCall.onCall event callback], Unsub.fromOn event callback)

/-- JavaScript truthiness of an optional string prop: `undefined` and the
empty string are falsy, every other string truthy. -/
def truthy : Option String → Bool
  | none => false
  | some s => !(s == "")

/-- `const resolvedKey = productKey ?? helpCenter` (PillarProvider.svelte
line 36): the nullish-coalescing operator falls back only on
null/undefined, not on the empty string. -/
def resolvedKey (productKey helpCenter : Option String) : Option String :=
  match productKey with
  | some k => some k
  | none => helpCenter

/-- Number of deprecation warnings emitted during one run of the component
setup script: `if (helpCenter && !productKey) console.warn(...)`
(lines 39-43), using JavaScript truthiness on both props. -/
def deprecationWarnCount (productKey helpCenter : Option String) : Nat :=
  if truthy helpCenter && !(truthy productKey) then 1 else 0

/-- What an event-listener callback registered by the provider does when it
fires, as a command over the stores (the source callbacks are
`() => isPanelOpenStore.set(true)`, `() => isPanelOpenStore.set(false)`,
`() => stateStore.set('ready')`, `() => stateStore.set('error')`, and
`(task) => onTask(task)`). -/
inductive HandlerSpec where
  | setIsPanelOpen (b : Bool)
  | setState (s : PillarState)
  | forwardTask
deriving DecidableEq, Repr

/-- Interpreter for `HandlerSpec`: the store writes each callback performs.
`forwardTask` calls the caller-supplied `onTask` prop and writes no store. -/
def applyHandler : HandlerSpec → Stores → Stores
  | HandlerSpec.setIsPanelOpen b, st => { st with isPanelOpen := b }
  | HandlerSpec.setState s, st => { st with state := s }
  | HandlerSpec.forwardTask, st => st

/-- Listeners attached on the fresh-initialization path of `onMount`
(PillarProvider.svelte lines 195-223), in registration order:
panel:open, panel:close, ready, error, and task:execute when an `onTask`
prop was supplied. -/
def freshRegistrations (hasOnTask : Bool) : List (String × HandlerSpec) :=
  [("panel:open", HandlerSpec.setIsPanelOpen true),
   ("panel:close", HandlerSpec.setIsPanelOpen false),
   ("ready", HandlerSpec.setState PillarState.ready),
   ("error", HandlerSpec.setState PillarState.error)] ++
  (if hasOnTask then [("task:execute", HandlerSpec.forwardTask)] else [])

/-- Listeners attached on the singleton-reuse path of `onMount`
(lines 170-179): only panel:open and panel:close. -/
def reuseRegistrations : List (String × HandlerSpec) :=
  [("panel:open", HandlerSpec.setIsPanelOpen true),
   ("panel:close", HandlerSpec.setIsPanelOpen false)]

/-- Provider props relevant to `onMount`: the two identifier props, whether
an `onTask` handler was supplied, and the `cards` mapping
(card type name to component name). -/
structure Props where
  productKey : Option String
  helpCenter : Option String
  hasOnTask : Bool
  cards : List (String × String)
deriving DecidableEq, Repr

/-- Environment `onMount` runs against: the result of
`Pillar.getInstance()` and the outcome of `await Pillar.init(...)`
(rejection modelled as `Except.error`). -/
structure MountEnv where
  existingInstance : Option PillarInstance
  initResult : Except String PillarInstance
deriving Repr

/-- Observable outcome of one `onMount` run: final stores, event listeners
registered on the instance, card types registered, number of cleanup
functions pushed onto `cleanupFunctions`, which key (if any) was passed to
`Pillar.init`, number of `console.error` reports, and whether an exception
escaped to the caller. -/
structure MountResult where
  stores : Stores
  registrations : List (String × HandlerSpec)
  cardRegistrations : List String
  cleanupCount : Nat
  initCalledWith : Option (Option String)
  consoleErrorCount : Nat
  thrown : Bool
deriving DecidableEq, Repr

/-- The `onMount` callback (PillarProvider.svelte lines 161-231), as a pure
function of its environment. Reuse path: store the existing instance and
its state, attach the two panel listeners, register cards. Fresh path:
call `Pillar.init` with the resolved key, store the instance and its
state, attach the four listeners plus the optional task listener, register
cards. Failure path: the `catch` block reports via `console.error` and
sets the state store to the error value; nothing is rethrown. -/
def runOnMount (env : MountEnv) (props : Props) (st : Stores) : MountResult :=
  match env.existingInstance with
  | some inst =>
      { stores := { st with pillar := some inst, state := inst.state }
        registrations := reuseRegistrations
        cardRegistrations := props.cards.map Prod.fst
        cleanupCount := reuseRegistrations.length + props.cards.length
        initCalledWith := none
        consoleErrorCount := 0
        thrown := false }
  | none =>
      match env.initResult with
      | Except.ok inst =>
          { stores := { st with pillar := some inst, state := inst.state }
            registrations := freshRegistrations props.hasOnTask
            cardRegistrations := props.cards.map Prod.fst
            cleanupCount := (freshRegistrations props.hasOnTask).length + props.cards.length
            initCalledWith := some (resolvedKey props.productKey props.helpCenter)
            consoleErrorCount := 0
            thrown := false }
      | Except.error _ =>
          { stores := { st with state := PillarState.error }
            registrations := []
            cardRegistrations := []
            cleanupCount := 0
            initCalledWith := some (resolvedKey props.productKey props.helpCenter)
            consoleErrorCount := 1
            thrown := false }

/-- Props received by a mounted card component: exactly the `data` value
and the three callbacks forwarded from the `CardCallbacks` argument
(PillarProvider.svelte lines 113-121). Data and callbacks are opaque
tokens. -/
structure CardProps where
  data : String
  onConfirm : Nat
  onCancel : Nat
  onStateChange : Nat
deriving DecidableEq, Repr

/-- A Svelte component mounted by the card renderer: its mount handle id,
which component of the `cards` mapping it is, the container it was mounted
into, and the props it received. -/
structure MountedCard where
  id : Nat
  component : String
  target : Nat
  props : CardProps
deriving DecidableEq, Repr

/-- Card bookkeeping state: the set of currently mounted components, the
`cardInstances : Map<HTMLElement, mount handle>` table (containers are
opaque numeric tokens; association list in insertion order, as a JS Map),
and a counter supplying fresh mount-handle ids. -/
structure CardSystem where
  mounted : List MountedCard
  cardInstances : List (Nat × Nat)
  nextId : Nat
deriving DecidableEq, Repr

/-- `Map.prototype.set`: replace the value at an existing key, else append. -/
def mapSet (m : List (Nat × Nat)) (k v : Nat) : List (Nat × Nat) :=
  match m with
  | [] => [(k, v)]
  | (k0, v0) :: rest =>
      if k0 = k then (k0, v) :: rest else (k0, v0) :: mapSet rest k v

/-- `Map.prototype.get`. -/
def mapGet (m : List (Nat × Nat)) (k : Nat) : Option Nat :=
  match m with
  | [] => none
  | (k0, v0) :: rest => if k0 = k then some v0 else mapGet rest k

/-- `Map.prototype.delete`. -/
def mapDelete (m : List (Nat × Nat)) (k : Nat) : List (Nat × Nat) :=
  match m with
  | [] => []
  | (k0, v0) :: rest => if k0 = k then rest else (k0, v0) :: mapDelete rest k

/-- The renderer callback registered for one card type, as invoked by the
SDK with a container, data, and the callback triple (PillarProvider.svelte
lines 111-123): mounts the mapped component into that container with
props `data/onConfirm/onCancel/onStateChange`, and records the mount
handle in `cardInstances`. -/
def renderCard (component : String) (cs : CardSystem) (container : Nat) (data : String)
    (onConfirm onCancel onStateChange : Nat) : CardSystem :=
  { mounted := cs.mounted ++
      [{ id := cs.nextId, component := component, target := container,
         props := { data := data, onConfirm := onConfirm, onCancel := onCancel,
                    onStateChange := onStateChange } }]
    cardInstances := mapSet cs.cardInstances container cs.nextId
    nextId := cs.nextId + 1 }

/-- The cleanup closure the renderer returns to the SDK (lines 126-132):
look up the handle tracked for the container, and if present unmount it
and drop it from `cardInstances`. -/
def cardCleanup (cs : CardSystem) (container : Nat) : CardSystem :=
  match mapGet cs.cardInstances container with
  | some cid =>
      { cs with
        mounted := cs.mounted.filter (fun mc => mc.id ≠ cid)
        cardInstances := mapDelete cs.cardInstances container }
  | none => cs

/-- The card half of `onDestroy` (lines 239-241):
`cardInstances.forEach((component) => unmount(component));
cardInstances.clear();` — every still-tracked handle is force-unmounted
and the table emptied. -/
def destroyCards (cs : CardSystem) : CardSystem :=
  { mounted := cs.mounted.filter (fun mc => ¬ (cs.cardInstances.map Prod.snd).contains mc.id)
    cardInstances := []
    nextId := cs.nextId }

/-- The process-wide external state the provider does not own: the SDK
singleton. Modelled from the spec: the external SDK exposes a singleton
accessor (`Pillar.getInstance`) and an async initializer (`Pillar.init`)
that creates and registers the singleton; the adapter never destroys it. -/
structure World where
  singleton : Option PillarInstance
deriving DecidableEq, Repr

/-- One provider activation seen together with the external singleton:
`onMount` reads `Pillar.getInstance()` from the world; a successful
`Pillar.init` registers the new instance as the singleton (external SDK
contract); a failed one leaves the world unchanged. -/
def mountWithWorld (w : World) (initNew : Except String PillarInstance) (props : Props)
    (st : Stores) : World × MountResult :=
  match w.singleton with
  | some inst =>
      (w, runOnMount { existingInstance := some inst, initResult := initNew } props st)
  | none =>
      match initNew with
      | Except.ok inst =>
          ({ singleton := some inst },
           runOnMount { existingInstance := none, initResult := Except.ok inst } props st)
      | Except.error e =>
          (w, runOnMount { existingInstance := none, initResult := Except.error e } props st)

/-- The `onDestroy` callback (PillarProvider.svelte lines 234-245): run the
collected cleanup functions, force-unmount all tracked cards, and leave
the external singleton alone (the source deliberately does not call
`Pillar.destroy()`). Returns the world, the card state, and the trace of
SDK lifecycle calls made (none: in particular no `destroyCall`). -/
def runOnDestroy (w : World) (cs : CardSystem) : World × CardSystem × List SDKCall :=
  (w, destroyCards cs, [])

/-- The context value shared through `setContext(PILLAR_CONTEXT_KEY, ...)`,
restricted to its reactive data (the imperative members are the action
functions modelled above). -/
structure PillarContextValue where
  pillar : Option PillarInstance
  state : PillarState
  isPanelOpen : Bool
deriving DecidableEq, Repr

/-- `usePillar()` (usePillar.ts lines 84-91): look up the provider context;
when absent, throw `usePillar must be used within a PillarProvider`
(modelled as `Except.error`); otherwise return the context. -/
def usePillar (ctx : Option PillarContextValue) : Except String PillarContextValue :=
  match ctx with
  | none => Except.error "usePillar must be used within a PillarProvider"
  | some c => Except.ok c

/-- `useHelpPanel()` (useHelpPanel.ts lines 58-63): look up the provider
context; when absent, throw `useHelpPanel must be used within a
PillarProvider`; otherwise return the context. -/
def useHelpPanel (ctx : Option PillarContextValue) : Except String PillarContextValue :=
  match ctx with
  | none => Except.error "useHelpPanel must be used within a PillarProvider"
  | some c => Except.ok c

/-- The typed `onTask` wrapper built by `usePillar` (usePillar.ts lines
94-109): read the current value of the `pillar` store; if null, return a
no-op unsubscribe; otherwise call `pillar.onTask(taskName, handler)` with
the arguments unchanged (the casts change only static types) and return
the unsubscribe the SDK API produced. The trace records the SDK calls
made. -/
def onTaskWrapper (ctxPillar : Option PillarInstance) (taskName : String) (handler : Nat) :
    List SDKCall × Unsub :=
  match ctxPillar with
  | none => ([], Unsub.noop)
  | some _ => ([SDKCall.onTaskCall taskName handler], Unsub.fromOnTask taskName handler)

/-- `openSearch(query?)` from `useHelpPanel` (useHelpPanel.ts lines 69-75):
`if (query) \x7b search(query) \x7d else \x7b open(\x7b view: 'search' \x7d) \x7d` —
the branch tests JavaScript truthiness, so an absent or empty query opens
the search view. -/
def openSearch (st : Stores) (query : Option String) : Stores × List SDKCall :=
  match query with
  | some q => if q ≠ "" then searchAction st q else openAction st (some { view := some "search" })
  | none => openAction st (some { view := some "search" })

/-- `openChat()` from `useHelpPanel` (useHelpPanel.ts lines 77-79):
`navigate('chat')`. -/
def openChat (st : Stores) : Stores × List SDKCall :=
  navigateAction st "chat" none

/-- A sample SDK instance used by concrete witnesses. -/
def instEx : PillarInstance := { state := PillarState.ready }

/-- Stores before initialization: no instance, uninitialized, panel closed. -/
def stEmpty : Stores :=
  { pillar := none, state := PillarState.uninitialized, isPanelOpen := false }

/-- Stores holding `instEx`, used by concrete witnesses. -/
def stInst : Stores :=
  { pillar := some instEx, state := PillarState.ready, isPanelOpen := false }

/-- Sample provider props used by concrete witnesses. -/
def propsEx : Props :=
  { productKey := some "k", helpCenter := none, hasOnTask := false, cards := [] }

/-- An empty card bookkeeping state used by concrete witnesses. -/
def csEmpty : CardSystem := { mounted := [], cardInstances := [], nextId := 0 }

/-- A key absent from the association list is not found by `mapGet`. -/
theorem mapGet_eq_none_of_not_mem (m : List (Nat × Nat)) (k : Nat)
    (h : k ∉ m.map Prod.fst) : mapGet m k = none := by
  induction m with
  | nil => rfl
  | cons hd tl ih =>
      obtain ⟨k0, v0⟩ := hd
      simp only [List.map_cons, List.mem_cons] at h
      push_neg at h
      simp only [mapGet]
      rw [if_neg (Ne.symm h.1)]
      exact ih h.2

/-- `mapSet` stores the value at the key it was given. -/
theorem mapGet_mapSet_self (m : List (Nat × Nat)) (k v : Nat) :
    mapGet (mapSet m k v) k = some v := by
  induction m with
  | nil => simp [mapSet, mapGet]
  | cons hd tl ih =>
      obtain ⟨k0, v0⟩ := hd
      by_cases h : k0 = k
      · simp [mapSet, mapGet, h]
      · simp only [mapSet]
        rw [if_neg h]
        simp only [mapGet]
        rw [if_neg h]
        exact ih

/-- Every key of `mapSet m k v` is `k` or a key of `m`. -/
theorem mem_keys_mapSet (m : List (Nat × Nat)) (k v a : Nat)
    (h : a ∈ (mapSet m k v).map Prod.fst) : a = k ∨ a ∈ m.map Prod.fst := by
  induction m with
  | nil => simpa [mapSet] using h
  | cons hd tl ih =>
      obtain ⟨k0, v0⟩ := hd
      by_cases hk : k0 = k
      · simp only [mapSet, if_pos hk, List.map_cons, List.mem_cons] at h
        rcases h with h | h
        · right; simp [h]
        · right; simp [h]
      · simp only [mapSet, if_neg hk, List.map_cons, List.mem_cons] at h
        rcases h with h | h
        · right; simp [h]
        · rcases ih h with h1 | h1
          · left; exact h1
          · right; simp [h1]

/-- `mapSet` keeps the keys of the association list without repetition. -/
theorem mapSet_keys_nodup (m : List (Nat × Nat)) (k v : Nat)
    (h : (m.map Prod.fst).Nodup) : ((mapSet m k v).map Prod.fst).Nodup := by
  induction m with
  | nil => simp [mapSet]
  | cons hd tl ih =>
      obtain ⟨k0, v0⟩ := hd
      simp only [List.map_cons, List.nodup_cons] at h
      by_cases hk : k0 = k
      · simp only [mapSet, if_pos hk, List.map_cons, List.nodup_cons]
        exact ⟨h.1, h.2⟩
      · simp only [mapSet, if_neg hk, List.map_cons, List.nodup_cons]
        refine ⟨fun hmem => ?_, ih h.2⟩
        rcases mem_keys_mapSet tl k v k0 hmem with h1 | h1
        · exact hk h1
        · exact h.1 h1

/-- Deleting a key from an association list with distinct keys removes it. -/
theorem mapGet_mapDelete_self (m : List (Nat × Nat)) (k : Nat)
    (h : (m.map Prod.fst).Nodup) : mapGet (mapDelete m k) k = none := by
  induction m with
  | nil => rfl
  | cons hd tl ih =>
      obtain ⟨k0, v0⟩ := hd
      simp only [List.map_cons, List.nodup_cons] at h
      by_cases hk : k0 = k
      · simp only [mapDelete, if_pos hk]
        exact mapGet_eq_none_of_not_mem tl k (hk ▸ h.1)
      · simp only [mapDelete, if_neg hk, mapGet]
        exact ih h.2

/-- The value stored by `mapSet` appears in the result under some key. -/
theorem mapSet_pair_mem (m : List (Nat × Nat)) (k v : Nat) :
    ∃ k0, (k0, v) ∈ mapSet m k v := by
  induction m with
  | nil => exact ⟨k, by simp [mapSet]⟩
  | cons hd tl ih =>
      obtain ⟨k0, v0⟩ := hd
      by_cases hk : k0 = k
      · exact ⟨k0, by simp [mapSet, if_pos hk]⟩
      · obtain ⟨k1, h1⟩ := ih
        exact ⟨k1, by simp only [mapSet, if_neg hk, List.mem_cons]; right; exact h1⟩

/-- C1: every imperative pass-through operation of the provider context
(open, close, toggle, openArticle, openCategory, search, navigate,
setTheme, setTextSelectionEnabled, on) is a no-op when `pillarStore`
holds null — stores unchanged, no SDK method called, and `on` returns the
no-op unsubscribe — and otherwise delegates its arguments unchanged to
the corresponding instance method (for openArticle, openCategory and
search the corresponding call is the `open`/`navigate` invocation the
source makes with the argument embedded unchanged). -/
theorem c1_imperative_passthrough (st : Stores) (inst : PillarInstance)
    (options : Option OpenOptions) (slug catSlug q view theme : String)
    (params : Option (List (String × String))) (enabled : Bool)
    (ev : String) (cb : Nat) :
    (st.pillar = none →
      openAction st options = (st, []) ∧
      closeAction st = (st, []) ∧
      toggleAction st = (st, []) ∧
      openArticleAction st slug = (st, []) ∧
      openCategoryAction st catSlug = (st, []) ∧
      searchAction st q = (st, []) ∧
      navigateAction st view params = (st, []) ∧
      setThemeAction st theme = (st, []) ∧
      setTextSelectionEnabledAction st enabled = (st, []) ∧
      onAction st ev cb = (st, [], Unsub.noop)) ∧
    (st.pillar = some inst →
      openAction st options = (st, [SDKCall.openCall options]) ∧
      closeAction st = (st, [SDKCall.closeCall]) ∧
      toggleAction st = (st, [SDKCall.toggleCall]) ∧
      openArticleAction st slug = (st, [SDKCall.openCall (some { article := some slug })]) ∧
      openCategoryAction st catSlug =
        (st, [SDKCall.navigateCall "category" (some [("slug", catSlug)])]) ∧
      searchAction st q = (st, [SDKCall.openCall (some { search := some q })]) ∧
      navigateAction st view params = (st, [SDKCall.navigateCall view params]) ∧
      setThemeAction st theme = (st, [SDKCall.setThemeCall theme]) ∧
      setTextSelectionEnabledAction st enabled =
        (st, [SDKCall.setTextSelectionEnabledCall enabled]) ∧
      onAction st ev cb = (st, [SDKCall.onCall ev cb], Unsub.fromOn ev cb)) := by
  constructor <;> intro h <;>
    simp [openAction, closeAction, toggleAction, openArticleAction, openCategoryAction,
      searchAction, navigateAction, setThemeAction, setTextSelectionEnabledAction,
      onAction, h]

/-- Witness for C1: the no-op case at empty stores and the delegation case
at stores holding `instEx`, both at concrete arguments. -/
theorem c1_imperative_passthrough_witness :
    openAction stEmpty none = (stEmpty, []) ∧
    onAction stEmpty "ready" 0 = (stEmpty, [], Unsub.noop) ∧
    openAction stInst none = (stInst, [SDKCall.openCall none]) ∧
    onAction stInst "ready" 0 = (stInst, [SDKCall.onCall "ready" 0], Unsub.fromOn "ready" 0) := by
  have h1 := (c1_imperative_passthrough stEmpty instEx none "s" "c" "q" "v" "t" none true
    "ready" 0).1 rfl
  have h2 := (c1_imperative_passthrough stInst instEx none "s" "c" "q" "v" "t" none true
    "ready" 0).2 rfl
  exact ⟨h1.1, h1.2.2.2.2.2.2.2.2.2, h2.1, h2.2.2.2.2.2.2.2.2.2⟩

/-- C2: when no singleton exists and the async initializer fails, the
`catch` block of `onMount` contains the failure — nothing propagates to
the caller (`thrown = false`, so the children of the provider still
render), exactly one `console.error` report is made, and the state store
is set to the error value. -/
theorem c2_init_failure_contained (env : MountEnv) (props : Props) (st : Stores) (e : String)
    (hEx : env.existingInstance = none) (hErr : env.initResult = Except.error e) :
    (runOnMount env props st).thrown = false ∧
    (runOnMount env props st).consoleErrorCount = 1 ∧
    (runOnMount env props st).stores.state = PillarState.error := by
  simp [runOnMount, hEx, hErr]

/-- Witness for C2 at a concrete failing initializer. -/
theorem c2_init_failure_contained_witness :
    (runOnMount { existingInstance := none, initResult := Except.error "boom" }
      propsEx stEmpty).thrown = false ∧
    (runOnMount { existingInstance := none, initResult := Except.error "boom" }
      propsEx stEmpty).consoleErrorCount = 1 ∧
    (runOnMount { existingInstance := none, initResult := Except.error "boom" }
      propsEx stEmpty).stores.state = PillarState.error :=
  c2_init_failure_contained { existingInstance := none, initResult := Except.error "boom" }
    propsEx stEmpty "boom" rfl rfl

/-- C3: provider deactivation never destroys the external singleton (the
world is returned untouched and no `destroyCall` is emitted), so after a
mount, an unmount, and a second mount while the singleton persists, the
second mount takes the reuse path (`Pillar.init` is not called) and the
state store equals the singleton current state field rather than the
initial uninitialized marker. -/
theorem c3_singleton_reuse_across_remount (w0 : World) (cs : CardSystem)
    (init1 init2 : Except String PillarInstance) (props1 props2 : Props)
    (st1 st2 : Stores) (inst : PillarInstance)
    (hpersist : (mountWithWorld w0 init1 props1 st1).1.singleton = some inst) :
    (runOnDestroy (mountWithWorld w0 init1 props1 st1).1 cs).1 =
      (mountWithWorld w0 init1 props1 st1).1 ∧
    SDKCall.destroyCall ∉ (runOnDestroy (mountWithWorld w0 init1 props1 st1).1 cs).2.2 ∧
    (mountWithWorld (runOnDestroy (mountWithWorld w0 init1 props1 st1).1 cs).1
      init2 props2 st2).2.initCalledWith = none ∧
    (mountWithWorld (runOnDestroy (mountWithWorld w0 init1 props1 st1).1 cs).1
      init2 props2 st2).2.stores.state = inst.state ∧
    (inst.state ≠ PillarState.uninitialized →
      (mountWithWorld (runOnDestroy (mountWithWorld w0 init1 props1 st1).1 cs).1
        init2 props2 st2).2.stores.state ≠ PillarState.uninitialized) := by
  have key : ∀ w : World, w.singleton = some inst →
      (mountWithWorld w init2 props2 st2).2.initCalledWith = none ∧
      (mountWithWorld w init2 props2 st2).2.stores.state = inst.state := by
    intro w hw
    simp [mountWithWorld, hw, runOnMount]
  refine ⟨rfl, by simp [runOnDestroy], ?_, ?_, ?_⟩
  · exact (key _ hpersist).1
  · exact (key _ hpersist).2
  · intro hne
    have h2 := (key ((mountWithWorld w0 init1 props1 st1).1) hpersist).2
    exact fun hcontra => hne (h2 ▸ hcontra)

/-- Witness for C3: a world already holding `instEx`, destroyed and
remounted with concrete props. -/
theorem c3_singleton_reuse_across_remount_witness :
    (mountWithWorld { singleton := some instEx } (Except.ok instEx) propsEx
      stEmpty).1.singleton = some instEx ∧
    (mountWithWorld (runOnDestroy (mountWithWorld { singleton := some instEx }
      (Except.ok instEx) propsEx stEmpty).1 csEmpty).1 (Except.ok instEx) propsEx
      stEmpty).2.initCalledWith = none ∧
    (mountWithWorld (runOnDestroy (mountWithWorld { singleton := some instEx }
      (Except.ok instEx) propsEx stEmpty).1 csEmpty).1 (Except.ok instEx) propsEx
      stEmpty).2.stores.state = instEx.state :=
  ⟨rfl,
   (c3_singleton_reuse_across_remount { singleton := some instEx } csEmpty
     (Except.ok instEx) (Except.ok instEx) propsEx propsEx stEmpty stEmpty instEx
     rfl).2.2.1,
   (c3_singleton_reuse_across_remount { singleton := some instEx } csEmpty
     (Except.ok instEx) (Except.ok instEx) propsEx propsEx stEmpty stEmpty instEx
     rfl).2.2.2.1⟩

/-- C4 counterexample: on the singleton-reuse path of `onMount` the `ready`
and `error` listeners are not registered — only panel:open and
panel:close are re-attached — refuting the claim that all four event
kinds are registered on every provider activation. -/
theorem c4_reuse_path_omits_ready_and_error_listeners :
    ("ready", HandlerSpec.setState PillarState.ready) ∉
      (runOnMount { existingInstance := some instEx, initResult := Except.ok instEx }
        propsEx stEmpty).registrations ∧
    ("error", HandlerSpec.setState PillarState.error) ∉
      (runOnMount { existingInstance := some instEx, initResult := Except.ok instEx }
        propsEx stEmpty).registrations := by
  decide

/-- C4 (amended): on the fresh-initialization path listeners for all four
event kinds (plus the optional task listener) are registered in source
order, each updating exactly one reactive flag, and one de-registration
function per listener and per card registration is collected for
teardown; on the singleton-reuse path only the panel-opened and
panel-closed listeners are registered (again with their de-registration
functions and card registrations collected). -/
theorem c4_listener_registration_amended (props : Props) (st : Stores)
    (inst : PillarInstance) (r : Except String PillarInstance) (b : Bool) (s : PillarState) :
    (runOnMount { existingInstance := none, initResult := Except.ok inst } props st).registrations =
      [("panel:open", HandlerSpec.setIsPanelOpen true),
       ("panel:close", HandlerSpec.setIsPanelOpen false),
       ("ready", HandlerSpec.setState PillarState.ready),
       ("error", HandlerSpec.setState PillarState.error)] ++
      (if props.hasOnTask then [("task:execute", HandlerSpec.forwardTask)] else []) ∧
    (runOnMount { existingInstance := none, initResult := Except.ok inst } props st).cleanupCount =
      (runOnMount { existingInstance := none, initResult := Except.ok inst } props
        st).registrations.length +
      (runOnMount { existingInstance := none, initResult := Except.ok inst } props
        st).cardRegistrations.length ∧
    (runOnMount { existingInstance := some inst, initResult := r } props st).registrations =
      [("panel:open", HandlerSpec.setIsPanelOpen true),
       ("panel:close", HandlerSpec.setIsPanelOpen false)] ∧
    (runOnMount { existingInstance := some inst, initResult := r } props st).cleanupCount =
      (runOnMount { existingInstance := some inst, initResult := r } props
        st).registrations.length +
      (runOnMount { existingInstance := some inst, initResult := r } props
        st).cardRegistrations.length ∧
    (applyHandler (HandlerSpec.setIsPanelOpen b) st).isPanelOpen = b ∧
    (applyHandler (HandlerSpec.setIsPanelOpen b) st).state = st.state ∧
    (applyHandler (HandlerSpec.setIsPanelOpen b) st).pillar = st.pillar ∧
    (applyHandler (HandlerSpec.setState s) st).state = s ∧
    (applyHandler (HandlerSpec.setState s) st).isPanelOpen = st.isPanelOpen ∧
    (applyHandler (HandlerSpec.setState s) st).pillar = st.pillar := by
  refine ⟨rfl, ?_, rfl, ?_, rfl, rfl, rfl, rfl, rfl, rfl⟩ <;>
    simp [runOnMount, freshRegistrations, reuseRegistrations]

/-- C5: when the SDK invokes a registered card renderer with a container,
action data, and the confirm/cancel/state-change callback triple, the
mapped component is mounted into exactly that container with exactly that
data and those three callbacks as props, and its mount handle is tracked
for the container; the cleanup the renderer returns unmounts the
component and removes the tracking entry; and `onDestroy` force-unmounts
the component even when the SDK never calls the returned cleanup. The
hypothesis states the `Map` invariant of `cardInstances` (one entry per
container). -/
theorem c5_card_render_and_teardown (cs : CardSystem) (component : String)
    (container : Nat) (data : String) (onConfirm onCancel onStateChange : Nat)
    (hnd : (cs.cardInstances.map Prod.fst).Nodup) :
    ({ id := cs.nextId, component := component, target := container,
       props := { data := data, onConfirm := onConfirm, onCancel := onCancel,
                  onStateChange := onStateChange } } : MountedCard) ∈
      (renderCard component cs container data onConfirm onCancel onStateChange).mounted ∧
    mapGet (renderCard component cs container data onConfirm onCancel
      onStateChange).cardInstances container = some cs.nextId ∧
    (∀ mc ∈ (cardCleanup (renderCard component cs container data onConfirm onCancel
        onStateChange) container).mounted, mc.id ≠ cs.nextId) ∧
    mapGet (cardCleanup (renderCard component cs container data onConfirm onCancel
      onStateChange) container).cardInstances container = none ∧
    (∀ mc ∈ (destroyCards (renderCard component cs container data onConfirm onCancel
        onStateChange)).mounted, mc.id ≠ cs.nextId) := by
  have hget : mapGet (renderCard component cs container data onConfirm onCancel
      onStateChange).cardInstances container = some cs.nextId :=
    mapGet_mapSet_self cs.cardInstances container cs.nextId
  refine ⟨?_, hget, ?_, ?_, ?_⟩
  · simp [renderCard]
  · intro mc hmc
    simp only [cardCleanup, hget, List.mem_filter] at hmc
    simpa using hmc.2
  · simp only [cardCleanup, hget]
    exact mapGet_mapDelete_self _ container
      (mapSet_keys_nodup cs.cardInstances container cs.nextId hnd)
  · intro mc hmc
    intro hid
    have hmem := (List.mem_filter.mp hmc).2
    simp only [destroyCards, renderCard, decide_not, Bool.not_eq_eq_eq_not, Bool.not_true,
      decide_eq_false_iff_not, List.contains_iff_exists_mem_beq, List.mem_map, beq_iff_eq,
      not_exists, not_and, Prod.exists, Prod.mk.injEq, exists_and_right, exists_eq_right,
      forall_exists_index] at hmem
    obtain ⟨k1, h1⟩ := mapSet_pair_mem cs.cardInstances container cs.nextId
    exact hmem cs.nextId k1 h1 hid

/-- Witness for C5 at the empty card state and concrete tokens. -/
theorem c5_card_render_and_teardown_witness :
    ([] : List Nat).Nodup ∧
    ({ id := 0, component := "InviteCard", target := 7,
       props := { data := "d", onConfirm := 1, onCancel := 2,
                  onStateChange := 3 } } : MountedCard) ∈
      (renderCard "InviteCard" csEmpty 7 "d" 1 2 3).mounted :=
  ⟨List.nodup_nil,
   (c5_card_render_and_teardown csEmpty "InviteCard" 7 "d" 1 2 3
     (by simp [csEmpty])).1⟩

/-- C6 counterexample: with the primary identifier supplied as the empty
string and the deprecated alias supplied as "h", both props are supplied
and the primary is the resolved value passed on, yet the deprecation
notice IS emitted: the warn guard tests JavaScript truthiness, under
which an empty primary counts as absent, while the nullish-coalescing
resolution does not. This refutes the claim that no deprecation notice is
emitted whenever both identifiers are supplied. -/
theorem c6_empty_primary_still_warns :
    resolvedKey (some "") (some "h") = some "" ∧
    deprecationWarnCount (some "") (some "h") = 1 := by
  decide

/-- C6 (amended): restricted to non-empty identifier strings — when both
are supplied the primary is resolved, passed to `Pillar.init`, and no
deprecation notice is emitted; when only the deprecated alias is
supplied, it is passed as the effective identifier and exactly one
deprecation log entry is produced per provider activation. (An
empty-string primary is excluded: the warn guard treats it as absent,
see the counterexample.) -/
theorem c6_identifier_resolution_amended (p h : String) (props : Props) (st : Stores)
    (inst : PillarInstance) (hp : p ≠ "") (hh : h ≠ "") :
    resolvedKey (some p) (some h) = some p ∧
    deprecationWarnCount (some p) (some h) = 0 ∧
    (runOnMount { existingInstance := none, initResult := Except.ok inst }
      { props with productKey := some p, helpCenter := some h } st).initCalledWith
      = some (some p) ∧
    resolvedKey none (some h) = some h ∧
    deprecationWarnCount none (some h) = 1 ∧
    (runOnMount { existingInstance := none, initResult := Except.ok inst }
      { props with productKey := none, helpCenter := some h } st).initCalledWith
      = some (some h) := by
  refine ⟨rfl, ?_, ?_, rfl, ?_, ?_⟩
  · simp [deprecationWarnCount, truthy, hp]
  · simp [runOnMount, resolvedKey]
  · simp [deprecationWarnCount, truthy, hh]
  · simp [runOnMount, resolvedKey]

/-- Witness for C6 (amended) at the keys "a" and "b". -/
theorem c6_identifier_resolution_amended_witness :
    ("a" : String) ≠ "" ∧ ("b" : String) ≠ "" ∧
    deprecationWarnCount (some "a") (some "b") = 0 ∧
    deprecationWarnCount none (some "b") = 1 :=
  ⟨by decide, by decide,
   (c6_identifier_resolution_amended "a" "b" propsEx stEmpty instEx (by decide)
     (by decide)).2.1,
   (c6_identifier_resolution_amended "a" "b" propsEx stEmpty instEx (by decide)
     (by decide)).2.2.2.2.1⟩

/-- C7: the typed `onTask` method returned by `usePillar` registers the
handler through the instance untyped task-registration API, forwarding
the name and handler unchanged, and returns that API unsubscribe when an
instance is present; when the pillar store holds null it returns the
no-op unsubscribe, makes no SDK call, and queues nothing for later. -/
theorem c7_onTask_registration (p : Option PillarInstance) (inst : PillarInstance)
    (taskName : String) (handler : Nat) :
    (p = none → onTaskWrapper p taskName handler = ([], Unsub.noop)) ∧
    (p = some inst →
      onTaskWrapper p taskName handler =
        ([SDKCall.onTaskCall taskName handler], Unsub.fromOnTask taskName handler)) := by
  constructor <;> intro h <;> simp [onTaskWrapper, h]

/-- Witness for C7: both branches at a concrete task name and handler. -/
theorem c7_onTask_registration_witness :
    onTaskWrapper none "t" 5 = ([], Unsub.noop) ∧
    onTaskWrapper (some instEx) "t" 5 =
      ([SDKCall.onTaskCall "t" 5], Unsub.fromOnTask "t" 5) :=
  ⟨(c7_onTask_registration none instEx "t" 5).1 rfl,
   (c7_onTask_registration (some instEx) instEx "t" 5).2 rfl⟩

/-- C8 counterexample: `openSearch` called with the empty query string does
not delegate to the search operation — the truthiness branch sends it to
`open(\x7b view: 'search' \x7d)` instead — refuting the claim that every given
query string is delegated to search. -/
theorem c8_empty_query_opens_view_instead_of_search :
    (openSearch stInst (some "")).2 =
      [SDKCall.openCall (some { view := some "search" })] ∧
    (openSearch stInst (some "")).2 ≠ (searchAction stInst "").2 := by
  decide

/-- C8 (amended): `openSearch` delegates every NON-EMPTY query string to
the context search operation with that query; called with no argument —
or with the empty string, which JavaScript truthiness treats the same —
it opens the panel directly to the search view without a query. -/
theorem c8_openSearch_amended (st : Stores) (q : String) (hq : q ≠ "") :
    openSearch st (some q) = searchAction st q ∧
    openSearch st none = openAction st (some { view := some "search" }) ∧
    openSearch st (some "") = openAction st (some { view := some "search" }) := by
  refine ⟨?_, rfl, ?_⟩
  · simp [openSearch, hq]
  · simp [openSearch]

/-- Witness for C8 (amended) at the query "x". -/
theorem c8_openSearch_amended_witness :
    ("x" : String) ≠ "" ∧ openSearch stInst (some "x") = searchAction stInst "x" :=
  ⟨by decide, (c8_openSearch_amended stInst "x" (by decide)).1⟩

/-- C9: both accessor hooks, invoked with no provider context available,
throw their configuration error synchronously (modelled as `Except.error`
carrying the thrown message) instead of returning a degraded context. -/
theorem c9_hooks_throw_outside_provider :
    usePillar none = Except.error "usePillar must be used within a PillarProvider" ∧
    useHelpPanel none = Except.error "useHelpPanel must be used within a PillarProvider" :=
  ⟨rfl, rfl⟩

/-- C10: no imperative pass-through operation writes any reactive store —
each returns the stores exactly as it found them — and the store writes
are confined to the registered listeners as the claim says: the
panel-open listeners write only the panel-open flag, the ready/error
listeners write only the state store, and the task listener writes no
store at all. -/
theorem c10_passthrough_frame (st : Stores) (options : Option OpenOptions)
    (slug catSlug q view theme : String) (params : Option (List (String × String)))
    (enabled : Bool) (ev : String) (cb : Nat) (b : Bool) (s : PillarState) :
    (openAction st options).1 = st ∧
    (closeAction st).1 = st ∧
    (toggleAction st).1 = st ∧
    (openArticleAction st slug).1 = st ∧
    (openCategoryAction st catSlug).1 = st ∧
    (searchAction st q).1 = st ∧
    (navigateAction st view params).1 = st ∧
    (setThemeAction st theme).1 = st ∧
    (setTextSelectionEnabledAction st enabled).1 = st ∧
    (onAction st ev cb).1 = st ∧
    (applyHandler (HandlerSpec.setIsPanelOpen b) st).pillar = st.pillar ∧
    (applyHandler (HandlerSpec.setIsPanelOpen b) st).state = st.state ∧
    (applyHandler (HandlerSpec.setState s) st).pillar = st.pillar ∧
    (applyHandler (HandlerSpec.setState s) st).isPanelOpen = st.isPanelOpen ∧
    applyHandler HandlerSpec.forwardTask st = st := by
  cases hst : st.pillar <;>
    simp [openAction, closeAction, toggleAction, openArticleAction, openCategoryAction,
      searchAction, navigateAction, setThemeAction, setTextSelectionEnabledAction,
      onAction, applyHandler, hst]
